import Mathlib

/-!
Shallow embedding of the aaargs library: an Argument descriptor that
lazily infers argparse flags from attribute names and type hints, and an
ArgumentParser container class that builds an external parser from its
descriptors and constructs instances from parsed results.
-/

namespace Aaargs

/-- Embedded Python values as they occur in this library: the None
singleton, the zninit.Empty sentinel class, booleans, integers and
strings. -/
inductive PyVal where
  | none
  | empty
  | bool (b : Bool)
  | int (n : Int)
  | str (s : String)
deriving DecidableEq

/-- Python equality as used by tuple membership tests: structural, except
that booleans compare equal to the corresponding integers (True == 1,
False == 0). -/
def pyEq : PyVal → PyVal → Bool
  | PyVal.none, PyVal.none => true
  | PyVal.empty, PyVal.empty => true
  | PyVal.bool a, PyVal.bool b => a == b
  | PyVal.int a, PyVal.int b => a == b
  | PyVal.str a, PyVal.str b => a == b
  | PyVal.bool a, PyVal.int n => (if a then (1 : Int) else 0) == n
  | PyVal.int n, PyVal.bool a => n == (if a then (1 : Int) else 0)
  | _, _ => false

/-- Python tuple membership test, v in (l1, ..., ln). -/
def pyIn (v : PyVal) (l : List PyVal) : Bool := l.any (fun w => pyEq v w)

/-- Python truthiness of the embedded values. -/
def pyTruthy : PyVal → Bool
  | PyVal.none => false
  | PyVal.empty => true
  | PyVal.bool b => b
  | PyVal.int n => n != 0
  | PyVal.str s => s != ""

/-- Type hint recorded for an attribute in the owner class dictionary of
type hints: absent, the bool class, the literal string naming bool, the
str class, or any other hint. -/
inductive Ann where
  | noAnn
  | boolTy
  | boolStr
  | strTy
  | other (s : String)
deriving DecidableEq

/-- Membership of the hint in the two boolean forms accepted by the
library (the bool class and its string spelling). -/
def Ann.isBoolAnn : Ann → Bool
  | Ann.boolTy => true
  | Ann.boolStr => true
  | _ => false

/-- Exceptions raised by the embedded code paths. -/
inductive PyError where
  | typeError (msg : String)
  | valueError (msg : String)
  | attributeError (msg : String)
deriving DecidableEq

/-- Option bag of an Argument, mirroring the dataclass with fields
action, choices, const, default, dest, help, metavar, nargs, required
and type. -/
structure ArgumentOptions where
  action : PyVal
  choices : PyVal
  const : PyVal
  default : PyVal
  dest : PyVal
  help : PyVal
  metavar : PyVal
  nargs : PyVal
  required : PyVal
  type : PyVal
deriving DecidableEq

/-- Dictionary of all option fields whose value is not None. -/
def ArgumentOptions.get_dict (o : ArgumentOptions) : List (String × PyVal) :=
  ([("action", o.action), ("choices", o.choices), ("const", o.const),
    ("default", o.default), ("dest", o.dest), ("help", o.help),
    ("metavar", o.metavar), ("nargs", o.nargs), ("required", o.required),
    ("type", o.type)]).filter (fun kv => kv.2 != PyVal.none)

/-- One declared Argument descriptor, after the owner class has bound its
attribute name and type hint: the name, the hint, the flag tuple, the
positional flag, the option bag, and the default stored on the
underlying descriptor. -/
structure Argument where
  name : String
  ann : Ann
  name_or_flags : List String
  positional : Bool
  options : ArgumentOptions
  default : PyVal
deriving DecidableEq

/-- Check of the owner type hint for the attribute. -/
def Argument.isBoolean (a : Argument) : Bool := a.ann.isBoolAnn

/-- Validation run at the end of construction: required combined with
positional raises a TypeError. -/
def Argument.checkInput (a : Argument) : Except PyError Argument :=
  if pyTruthy a.options.required && a.positional then
    Except.error (PyError.typeError "required is an invalid argument for positionals")
  else Except.ok a

/-- Construction of an Argument, with the attribute name and hint the
owner class binds at class creation. When required is truthy, a default
equal to the sentinel or None is normalised to the sentinel and any
other default raises a TypeError; when required is falsy, an
unspecified default (the sentinel) is replaced by None. The resulting
default is stored both on the descriptor and in the option bag, and the
required versus positional validation runs last. -/
def Argument.init (name : String) (ann : Ann) (name_or_flags : List String)
    (action choices const default dest help metavar nargs required type : PyVal)
    (positional : Bool) : Except PyError Argument :=
  let build : PyVal → Except PyError Argument := fun d =>
    Argument.checkInput
      { name := name, ann := ann, name_or_flags := name_or_flags,
        positional := positional, default := d,
        options :=
          { action := action, choices := choices, const := const,
            default := d, dest := dest, help := help, metavar := metavar,
            nargs := nargs, required := required, type := type } }
  if pyTruthy required then
    if pyIn default [PyVal.empty, PyVal.none] then build PyVal.empty
    else
      Except.error (PyError.typeError
        "When using required=True the argument default must be None")
  else if default = PyVal.empty then build PyVal.none
  else build default

/-- Boolean hint handling run at the start of every attribute read: when
the hint is boolean and no action was given, the action becomes
store_true; when additionally no flags were given, a positional
Argument raises a TypeError, a default that is not equal to a boolean,
None or the sentinel raises a ValueError, and otherwise the flag tuple
becomes the double-dash-prefixed attribute name. -/
def Argument.handleBoolAnn (a : Argument) : Except PyError Argument :=
  if a.isBoolean && (a.options.action = PyVal.none) then
    if a.name_or_flags = [] then
      if a.positional then
        Except.error (PyError.typeError
          ("Can not use boolean annotation with positional only Argument " ++ a.name))
      else if pyIn a.default [PyVal.bool true, PyVal.bool false, PyVal.none, PyVal.empty] = false then
        Except.error (PyError.valueError
          ("Default value for boolean argument " ++ a.name ++ " can only be boolean"))
      else
        Except.ok
          { a with
            options := { a.options with action := PyVal.str "store_true" },
            name_or_flags := ["--" ++ a.name] }
    else
      Except.ok { a with options := { a.options with action := PyVal.str "store_true" } }
  else Except.ok a

/-- Flag inference on attribute read: when no flags were given, the flag
tuple becomes the bare attribute name for positional Arguments and the
double-dash-prefixed name otherwise. -/
def Argument.inferFlags (b : Argument) : Argument :=
  if b.name_or_flags = [] then
    { b with name_or_flags := [if b.positional then b.name else "--" ++ b.name] }
  else b

/-- Default replacement on attribute read: a boolean-hinted Argument
whose descriptor default equals None or the sentinel gets False. -/
def Argument.resolveDefault (c : Argument) : Argument :=
  if c.isBoolean && pyIn c.default [PyVal.none, PyVal.empty] then
    { c with default := PyVal.bool false }
  else c

/-- Attribute read of the descriptor: runs the boolean hint handling,
then the flag inference, then the boolean default replacement, and
returns the resolved descriptor, as class access does. -/
def Argument.get (a : Argument) : Except PyError Argument :=
  match a.handleBoolAnn with
  | Except.error e => Except.error e
  | Except.ok b => Except.ok (Argument.resolveDefault (Argument.inferFlags b))

/-- Modelled from the spec: the external parsing facility handles a
store_true action as a flag-style boolean ("true when present, false
otherwise"); because the option dictionary drops None values, a None
default leaves the facility to supply False, while a registered
non-None default is used when the flag is absent. -/
def Argument.storeTrueParse (a : Argument) (tokens : List String) : PyVal :=
  if a.name_or_flags.any (fun f => tokens.contains f) then PyVal.bool true
  else if a.options.default = PyVal.none then PyVal.bool false
  else a.options.default

/-- Lookup of a key in an association list of parsed or stored values. -/
def lookupVal (kvs : List (String × PyVal)) (k : String) : Option PyVal :=
  (kvs.find? (fun kv => kv.1 == k)).map (fun kv => kv.2)

/-- An instance of the container class: one value per declared
attribute. -/
structure Instance where
  values : List (String × PyVal)
deriving DecidableEq

/-- A container class: its ordered list of declared Argument
descriptors. -/
structure ParserClass where
  arguments : List Argument
deriving DecidableEq

/-- Modelled from the spec: the external init facility constructs an
instance from keyword arguments; a keyword that names no declared
attribute raises a TypeError, a required attribute (no-value sentinel
default) with no supplied value raises a TypeError, and otherwise every
declared attribute receives the supplied value or its default. -/
def ParserClass.construct (cls : ParserClass) (kwargs : List (String × PyVal)) :
    Except PyError Instance :=
  if kwargs.any (fun kv => !(cls.arguments.any (fun a => a.name == kv.1))) then
    Except.error (PyError.typeError "unexpected keyword argument")
  else if cls.arguments.any
      (fun a => a.default == PyVal.empty && (lookupVal kwargs a.name).isNone) then
    Except.error (PyError.typeError "missing required argument")
  else
    Except.ok
      { values := cls.arguments.map
          (fun a => (a.name, (lookupVal kwargs a.name).getD a.default)) }

/-- Names of declared arguments that are absent from the parsed result,
in declaration order. -/
def ParserClass.missingNames (cls : ParserClass) (parsed : List (String × PyVal)) :
    List String :=
  (cls.arguments.map Argument.name).filter
    (fun n => !(parsed.any (fun kv => kv.1 == n)))

/-- Message of the naming-mismatch error raised by parse_args, listing
the missing attribute names. -/
def missingMessage (names : List String) : String :=
  "Arguments " ++ toString names ++
    " not in the parsed namespace. Check that the attribute names match the argparse names."

/-- The parse_args logic after the external parser has produced its
key/value result: construct an instance from the parsed pairs; when
construction fails with a TypeError, raise an AttributeError listing
the declared attribute names absent from the parsed result. -/
def ParserClass.parseArgsFrom (cls : ParserClass) (parsed : List (String × PyVal)) :
    Except PyError Instance :=
  match cls.construct parsed with
  | Except.ok inst => Except.ok inst
  | Except.error (PyError.typeError _) =>
      Except.error (PyError.attributeError (missingMessage (cls.missingNames parsed)))
  | Except.error e => Except.error e

/-- Assignment to an existing attribute of the class dictionary. -/
def setAttr (attrs : List (String × PyVal)) (k : String) (v : PyVal) :
    List (String × PyVal) :=
  attrs.map (fun kv => if kv.1 == k then (k, v) else kv)

/-- Subclass creation hook: each keyword in order is assigned onto the
class when its name is an existing attribute, and otherwise raises an
AttributeError. -/
def initSubclass (attrs : List (String × PyVal)) (kwargs : List (String × PyVal)) :
    Except PyError (List (String × PyVal)) :=
  match kwargs with
  | [] => Except.ok attrs
  | (k, v) :: rest =>
      if attrs.any (fun kv => kv.1 == k) then initSubclass (setAttr attrs k v) rest
      else Except.error (PyError.attributeError ("Class has no attribute " ++ k))

/-- Class-level configuration fields of the container class, with
parents kept as an optional list to distinguish None from a list. -/
structure ParserConfig where
  prog : PyVal
  usage : PyVal
  description : PyVal
  epilog : PyVal
  parents : Option (List PyVal)
  formatter_class : PyVal
  prefix_chars : PyVal
  fromfile_prefix_chars : PyVal
  argument_default : PyVal
  conflict_handler : PyVal
  add_help : PyVal
  allow_abbrev : PyVal
deriving DecidableEq

/-- Constructor arguments handed to the external argparse parser. -/
structure ArgparseInit where
  prog : PyVal
  usage : PyVal
  description : PyVal
  epilog : PyVal
  parents : List PyVal
  formatter_class : PyVal
  prefix_chars : PyVal
  fromfile_prefix_chars : PyVal
  argument_default : PyVal
  conflict_handler : PyVal
  add_help : PyVal
  allow_abbrev : PyVal
deriving DecidableEq

/-- Parser building from the class configuration: when parents is None
it is first replaced, on the class itself, by the empty list; the
external parser is then built from the (possibly updated) class
fields. Returns the updated class configuration together with the
constructor arguments of the external parser. -/
def getParser (cfg : ParserConfig) : ParserConfig × ArgparseInit :=
  let cfg2 : ParserConfig :=
    if cfg.parents = Option.none then { cfg with parents := some [] } else cfg
  (cfg2,
    { prog := cfg2.prog, usage := cfg2.usage, description := cfg2.description,
      epilog := cfg2.epilog, parents := cfg2.parents.getD [],
      formatter_class := cfg2.formatter_class, prefix_chars := cfg2.prefix_chars,
      fromfile_prefix_chars := cfg2.fromfile_prefix_chars,
      argument_default := cfg2.argument_default,
      conflict_handler := cfg2.conflict_handler, add_help := cfg2.add_help,
      allow_abbrev := cfg2.allow_abbrev })

/-- Option bag with every option unspecified. -/
def optsNone : ArgumentOptions :=
  { action := PyVal.none, choices := PyVal.none, const := PyVal.none,
    default := PyVal.none, dest := PyVal.none, help := PyVal.none,
    metavar := PyVal.none, nargs := PyVal.none, required := PyVal.none,
    type := PyVal.none }

/-- Sample boolean-hinted positional Argument with no flags, as produced
by construction. -/
def exC1 : Argument :=
  { name := "verbose", ann := Ann.boolTy, name_or_flags := [],
    positional := true, options := optsNone, default := PyVal.none }

/-- Sample plain Argument with no flags and no hint. -/
def exC1w : Argument :=
  { name := "filename", ann := Ann.noAnn, name_or_flags := [],
    positional := false, options := optsNone, default := PyVal.none }

/-- Resolved form of the sample plain Argument. -/
def exC1wRes : Argument :=
  { exC1w with name_or_flags := ["--filename"] }

/-- Sample boolean-hinted Argument with an explicit default of True. -/
def exC2 : Argument :=
  { name := "verbose", ann := Ann.boolTy, name_or_flags := [],
    positional := false, options := { optsNone with default := PyVal.bool true },
    default := PyVal.bool true }

/-- Resolved form of the explicit-True-default boolean Argument. -/
def exC2r : Argument :=
  { exC2 with
    name_or_flags := ["--verbose"],
    options := { optsNone with
                 action := PyVal.str "store_true",
                 default := PyVal.bool true } }

/-- Sample boolean-hinted Argument with no flags and no default. -/
def exC2w : Argument :=
  { name := "verbose", ann := Ann.boolTy, name_or_flags := [],
    positional := false, options := optsNone, default := PyVal.none }

/-- Resolved form of the no-default boolean Argument. -/
def exC2wRes : Argument :=
  { exC2w with
    name_or_flags := ["--verbose"],
    options := { optsNone with action := PyVal.str "store_true" },
    default := PyVal.bool false }

/-- Sample Argument constructed with no explicit default and required
unspecified. -/
def exC3 : Argument :=
  { name := "filename", ann := Ann.noAnn, name_or_flags := [],
    positional := false, options := optsNone, default := PyVal.none }

/-- Sample boolean-hinted positional Argument with explicit flags. -/
def exC5 : Argument :=
  { name := "verbose", ann := Ann.boolTy, name_or_flags := ["--verb"],
    positional := true, options := optsNone, default := PyVal.none }

/-- Resolved form of the flagged boolean positional Argument. -/
def exC5r : Argument :=
  { exC5 with
    options := { optsNone with action := PyVal.str "store_true" },
    default := PyVal.bool false }

/-- Sample boolean-hinted Argument with explicit flags and a string
default. -/
def exC6 : Argument :=
  { name := "name", ann := Ann.boolTy, name_or_flags := ["--name"],
    positional := false,
    options := { optsNone with default := PyVal.str "someone" },
    default := PyVal.str "someone" }

/-- Resolved form of the flagged boolean Argument with a string
default. -/
def exC6r : Argument :=
  { exC6 with
    options := { optsNone with
                 action := PyVal.str "store_true",
                 default := PyVal.str "someone" } }

/-- Sample boolean-hinted Argument with no flags and a string default. -/
def exC6w : Argument :=
  { name := "name", ann := Ann.boolTy, name_or_flags := [],
    positional := false,
    options := { optsNone with default := PyVal.str "someone" },
    default := PyVal.str "someone" }

/-- Sample container class whose single attribute filename carries a
mismatching explicit flag. -/
def exC7cls : ParserClass :=
  { arguments :=
      [{ name := "filename", ann := Ann.noAnn, name_or_flags := ["--encoding"],
         positional := false, options := optsNone, default := PyVal.none }] }

/-- Parsed result produced for the mismatching flag. -/
def exC7parsed : List (String × PyVal) := [("encoding", PyVal.str "utf-8")]

/-- Parsed result whose key matches the attribute name. -/
def exC7parsedOk : List (String × PyVal) := [("filename", PyVal.str "myfile")]

/-- Instance built from the matching parsed result. -/
def exC7inst : Instance := { values := [("filename", PyVal.str "myfile")] }

/-- Sample class attribute dictionary with a description field. -/
def exC8attrs : List (String × PyVal) := [("description", PyVal.none)]

/-- Sample configuration with parents unset. -/
def exCfgNone : ParserConfig :=
  { prog := PyVal.none, usage := PyVal.none,
    description := PyVal.str "Lorem Ipsum", epilog := PyVal.none,
    parents := Option.none, formatter_class := PyVal.str "HelpFormatter",
    prefix_chars := PyVal.str "-", fromfile_prefix_chars := PyVal.none,
    argument_default := PyVal.none, conflict_handler := PyVal.str "error",
    add_help := PyVal.bool true, allow_abbrev := PyVal.bool true }

/-- Sample configuration with parents set to a one-element list. -/
def exCfgSome : ParserConfig :=
  { exCfgNone with parents := some [PyVal.str "p"] }

/-- Sample boolean-hinted Argument with explicit flags and no default,
for exercising the default replacement. -/
def exC3b : Argument :=
  { name := "verbose", ann := Ann.boolTy, name_or_flags := ["--verbose"],
    positional := false, options := optsNone, default := PyVal.none }

/-- Resolved form of the flagged no-default boolean Argument. -/
def exC3bRes : Argument :=
  { exC3b with
    options := { optsNone with action := PyVal.str "store_true" },
    default := PyVal.bool false }

/-- Sample boolean-string-hinted positional Argument with no flags. -/
def exC5w : Argument :=
  { name := "flag", ann := Ann.boolStr, name_or_flags := [],
    positional := true, options := optsNone, default := PyVal.none }

/-- Assigning an existing key leaves it retrievable with the new value. -/
theorem lookup_setAttr (attrs : List (String × PyVal)) (k : String) (v : PyVal)
    (h : attrs.any (fun kv => kv.1 == k) = true) :
    lookupVal (setAttr attrs k v) k = some v := by
  induction attrs with
  | nil => simp at h
  | cons hd tl ih =>
    by_cases hk : hd.1 == k
    · simp [setAttr, lookupVal, List.find?, hk]
    · simp only [List.any_cons, hk, Bool.false_or] at h
      simpa [setAttr, lookupVal, List.find?, hk] using ih h

/-- Flag inference changes only the flag tuple. -/
theorem inferFlags_preserves (b : Argument) :
    (Argument.inferFlags b).name = b.name ∧ (Argument.inferFlags b).ann = b.ann ∧
    (Argument.inferFlags b).positional = b.positional ∧
    (Argument.inferFlags b).default = b.default ∧
    (Argument.inferFlags b).options = b.options := by
  unfold Argument.inferFlags
  split <;> simp

/-- Default replacement changes only the descriptor default. -/
theorem resolveDefault_preserves (c : Argument) :
    (Argument.resolveDefault c).name = c.name ∧
    (Argument.resolveDefault c).ann = c.ann ∧
    (Argument.resolveDefault c).positional = c.positional ∧
    (Argument.resolveDefault c).name_or_flags = c.name_or_flags ∧
    (Argument.resolveDefault c).options = c.options := by
  unfold Argument.resolveDefault
  split <;> simp

/-- Boolean hint handling never changes the name, hint, positional flag
or defaults of the Argument it returns. -/
theorem handleBoolAnn_preserves (a c : Argument) (h : a.handleBoolAnn = Except.ok c) :
    c.name = a.name ∧ c.ann = a.ann ∧ c.positional = a.positional ∧
    c.default = a.default ∧ c.options.default = a.options.default := by
  unfold Argument.handleBoolAnn at h
  split_ifs at h <;> simp only [Except.ok.injEq] at h <;> subst h <;> simp

/-- Attribute reads succeed exactly when the boolean hint handling does,
and then return the flag-inferred, default-resolved descriptor. -/
theorem get_ok_iff (a b : Argument) :
    a.get = Except.ok b ↔
      ∃ c, a.handleBoolAnn = Except.ok c ∧
        b = Argument.resolveDefault (Argument.inferFlags c) := by
  unfold Argument.get
  cases hh : a.handleBoolAnn <;> simp [eq_comm]

/-- A failing boolean hint handling makes the attribute read fail the
same way. -/
theorem get_error_of_handle (a : Argument) (e : PyError)
    (h : a.handleBoolAnn = Except.error e) : a.get = Except.error e := by
  unfold Argument.get
  rw [h]

/-- Boolean hint handling under a boolean hint and an unset action
records the store_true action on the Argument it returns. -/
theorem handleBoolAnn_sets_action (a c : Argument)
    (h1 : a.isBoolean = true) (h2 : a.options.action = PyVal.none)
    (h : a.handleBoolAnn = Except.ok c) :
    c.options.action = PyVal.str "store_true" := by
  unfold Argument.handleBoolAnn at h
  rw [if_pos (by simp [h1, h2])] at h
  split_ifs at h <;> simp only [Except.ok.injEq] at h <;> subst h <;> rfl

/-- C4: constructing an Argument with required equal to True and
positional equal to True raises a TypeError at construction time, for
every combination of the remaining options. -/
theorem required_positional_init_type_error
    (name : String) (ann : Ann) (flags : List String)
    (action choices const default dest help metavar nargs type : PyVal) :
    ∃ msg, Argument.init name ann flags action choices const default dest help
      metavar nargs (PyVal.bool true) type true =
      Except.error (PyError.typeError msg) := by
  unfold Argument.init
  by_cases h : pyIn default [PyVal.empty, PyVal.none] = true
  · simp [h, pyTruthy, Argument.checkInput]
  · simp [h, pyTruthy]

/-- C9: constructing an Argument with truthy required and a default
other than None or the no-value sentinel raises a TypeError at
construction time. -/
theorem required_with_default_init_type_error
    (name : String) (ann : Ann) (flags : List String)
    (action choices const default dest help metavar nargs required type : PyVal)
    (positional : Bool)
    (hr : pyTruthy required = true)
    (h1 : pyEq default PyVal.empty = false)
    (h2 : pyEq default PyVal.none = false) :
    Argument.init name ann flags action choices const default dest help metavar
      nargs required type positional =
      Except.error (PyError.typeError
        "When using required=True the argument default must be None") := by
  unfold Argument.init
  simp [hr, pyIn, h1, h2]

/-- Witness for C9 at required equal to True and a string default. -/
theorem required_with_default_init_type_error_witness :
    Argument.init "name" Ann.noAnn [] PyVal.none PyVal.none PyVal.none
      (PyVal.str "x") PyVal.none PyVal.none PyVal.none PyVal.none
      (PyVal.bool true) PyVal.none false =
      Except.error (PyError.typeError
        "When using required=True the argument default must be None") :=
  required_with_default_init_type_error "name" Ann.noAnn [] PyVal.none PyVal.none
    PyVal.none (PyVal.str "x") PyVal.none PyVal.none PyVal.none PyVal.none
    (PyVal.bool true) PyVal.none false rfl rfl rfl

/-- C7: when instance construction from the parsed result fails with a
TypeError, parse_args raises an AttributeError whose message lists
exactly the declared attribute names absent from the parsed result;
when construction succeeds, parse_args returns the instance populated
from the parsed key/value pairs. -/
theorem parse_args_missing_names_or_instance (cls : ParserClass)
    (parsed : List (String × PyVal)) :
    (∀ m, cls.construct parsed = Except.error (PyError.typeError m) →
        cls.parseArgsFrom parsed =
          Except.error (PyError.attributeError
            (missingMessage (cls.missingNames parsed)))) ∧
    (∀ inst, cls.construct parsed = Except.ok inst →
        cls.parseArgsFrom parsed = Except.ok inst ∧
        inst.values = cls.arguments.map
          (fun a => (a.name, (lookupVal parsed a.name).getD a.default))) := by
  constructor
  · intro m h
    unfold ParserClass.parseArgsFrom
    rw [h]
  · intro inst h
    refine ⟨?_, ?_⟩
    · unfold ParserClass.parseArgsFrom
      rw [h]
    · unfold ParserClass.construct at h
      split_ifs at h
      simp only [Except.ok.injEq] at h
      rw [← h]

/-- Witness for C7: a mismatching flag name leads to the attribute
error, and a matching parsed result yields the populated instance. -/
theorem parse_args_missing_names_or_instance_witness :
    exC7cls.parseArgsFrom exC7parsed =
      Except.error (PyError.attributeError
        (missingMessage (exC7cls.missingNames exC7parsed))) ∧
    exC7cls.parseArgsFrom exC7parsedOk = Except.ok exC7inst :=
  ⟨(parse_args_missing_names_or_instance exC7cls exC7parsed).1
      "unexpected keyword argument" rfl,
   ((parse_args_missing_names_or_instance exC7cls exC7parsedOk).2 exC7inst rfl).1⟩

/-- C8: a subclass keyword whose name is not an existing attribute
raises an AttributeError, and a keyword naming an existing attribute
sets that attribute to the given value. -/
theorem init_subclass_kwargs (attrs : List (String × PyVal)) (k : String) (v : PyVal) :
    (attrs.any (fun kv => kv.1 == k) = false →
        initSubclass attrs [(k, v)] =
          Except.error (PyError.attributeError ("Class has no attribute " ++ k))) ∧
    (attrs.any (fun kv => kv.1 == k) = true →
        initSubclass attrs [(k, v)] = Except.ok (setAttr attrs k v) ∧
        lookupVal (setAttr attrs k v) k = some v) := by
  constructor
  · intro h
    simp [initSubclass, h]
  · intro h
    exact ⟨by simp [initSubclass, h], lookup_setAttr attrs k v h⟩

/-- Witness for C8 on a class dictionary holding a description field. -/
theorem init_subclass_kwargs_witness :
    initSubclass exC8attrs [("wrong_kwarg", PyVal.str "Lorem")] =
      Except.error (PyError.attributeError ("Class has no attribute " ++ "wrong_kwarg")) ∧
    (initSubclass exC8attrs [("description", PyVal.str "Lorem Ipsum")] =
      Except.ok (setAttr exC8attrs "description" (PyVal.str "Lorem Ipsum")) ∧
     lookupVal (setAttr exC8attrs "description" (PyVal.str "Lorem Ipsum"))
       "description" = some (PyVal.str "Lorem Ipsum")) :=
  ⟨(init_subclass_kwargs exC8attrs "wrong_kwarg" (PyVal.str "Lorem")).1 rfl,
   (init_subclass_kwargs exC8attrs "description" (PyVal.str "Lorem Ipsum")).2 rfl⟩

/-- C10: parser building leaves every configuration field unchanged
except parents, which is permanently replaced by the empty list when it
was None, so a second call observes the empty list. -/
theorem get_parser_parents_mutation (cfg : ParserConfig) :
    ((getParser cfg).1.prog = cfg.prog ∧ (getParser cfg).1.usage = cfg.usage ∧
     (getParser cfg).1.description = cfg.description ∧
     (getParser cfg).1.epilog = cfg.epilog ∧
     (getParser cfg).1.formatter_class = cfg.formatter_class ∧
     (getParser cfg).1.prefix_chars = cfg.prefix_chars ∧
     (getParser cfg).1.fromfile_prefix_chars = cfg.fromfile_prefix_chars ∧
     (getParser cfg).1.argument_default = cfg.argument_default ∧
     (getParser cfg).1.conflict_handler = cfg.conflict_handler ∧
     (getParser cfg).1.add_help = cfg.add_help ∧
     (getParser cfg).1.allow_abbrev = cfg.allow_abbrev) ∧
    (cfg.parents = Option.none →
        (getParser cfg).1.parents = some [] ∧
        (getParser (getParser cfg).1).1.parents = some []) ∧
    (∀ l, cfg.parents = some l → (getParser cfg).1.parents = some l) := by
  unfold getParser
  by_cases h : cfg.parents = Option.none <;> simp [h]

/-- Witness for C10: an unset parents field becomes the empty list, a
set one stays, and another field is untouched. -/
theorem get_parser_parents_mutation_witness :
    (getParser exCfgNone).1.parents = some [] ∧
    (getParser (getParser exCfgNone).1).1.parents = some [] ∧
    (getParser exCfgSome).1.parents = some [PyVal.str "p"] ∧
    (getParser exCfgNone).1.description = exCfgNone.description :=
  ⟨((get_parser_parents_mutation exCfgNone).2.1 rfl).1,
   ((get_parser_parents_mutation exCfgNone).2.1 rfl).2,
   (get_parser_parents_mutation exCfgSome).2.2 [PyVal.str "p"] rfl,
   (get_parser_parents_mutation exCfgNone).1.2.2.1⟩

/-- C1 counterexample: a boolean-hinted positional Argument with no
explicit flags is constructible, yet its first attribute read raises a
TypeError instead of resolving the flag tuple to the bare name. -/
theorem bool_positional_read_raises_cex :
    Argument.init "verbose" Ann.boolTy [] PyVal.none PyVal.none PyVal.none
      PyVal.empty PyVal.none PyVal.none PyVal.none PyVal.none PyVal.none
      PyVal.none true = Except.ok exC1 ∧
    exC1.name_or_flags = [] ∧ exC1.positional = true ∧
    exC1.get = Except.error (PyError.typeError
      "Can not use boolean annotation with positional only Argument verbose") :=
  ⟨rfl, rfl, rfl, rfl⟩

/-- C1 amended: for every Argument with no explicit flag strings whose
first attribute read succeeds, the resolved flag tuple is exactly the
bare attribute name when positional and the double-dash-prefixed name
otherwise. -/
theorem flag_inference_on_successful_read (a b : Argument)
    (hf : a.name_or_flags = []) (h : a.get = Except.ok b) :
    b.name_or_flags = [if a.positional then a.name else "--" ++ a.name] := by
  obtain ⟨c, hh, hb⟩ := (get_ok_iff a b).1 h
  subst hb
  rw [(resolveDefault_preserves (Argument.inferFlags c)).2.2.2.1]
  unfold Argument.handleBoolAnn at hh
  by_cases h1 : a.isBoolean && (a.options.action = PyVal.none)
  · rw [if_pos h1, if_pos hf] at hh
    by_cases h3 : a.positional
    · rw [if_pos h3] at hh
      exact absurd hh (by simp)
    · rw [if_neg h3] at hh
      by_cases h4 : pyIn a.default
          [PyVal.bool true, PyVal.bool false, PyVal.none, PyVal.empty] = false
      · rw [if_pos h4] at hh
        exact absurd hh (by simp)
      · rw [if_neg h4] at hh
        simp only [Except.ok.injEq] at hh
        subst hh
        simp [Argument.inferFlags]
        rw [if_neg h3]
  · rw [if_neg h1] at hh
    simp only [Except.ok.injEq] at hh
    subst hh
    simp [Argument.inferFlags, hf]

/-- Witness for C1 amended at a plain optional Argument. -/
theorem flag_inference_on_successful_read_witness :
    exC1w.name_or_flags = [] ∧
    exC1wRes.name_or_flags =
      [if exC1w.positional then exC1w.name else "--" ++ exC1w.name] :=
  ⟨rfl, flag_inference_on_successful_read exC1w exC1wRes rfl rfl⟩

/-- C2 counterexample: a boolean-hinted Argument with an explicit True
default and no explicit action resolves, its flag is absent from the
empty token list, and parsing yields True rather than False. -/
theorem bool_default_true_parse_cex :
    Argument.init "verbose" Ann.boolTy [] PyVal.none PyVal.none PyVal.none
      (PyVal.bool true) PyVal.none PyVal.none PyVal.none PyVal.none PyVal.none
      PyVal.none false = Except.ok exC2 ∧
    exC2.isBoolean = true ∧ exC2.options.action = PyVal.none ∧
    exC2.get = Except.ok exC2r ∧
    (exC2r.name_or_flags.any fun f => ([] : List String).contains f) = false ∧
    exC2r.storeTrueParse [] = PyVal.bool true :=
  ⟨rfl, rfl, rfl, rfl, rfl, rfl⟩

/-- C2 amended: for every Argument with a boolean hint, no explicit
action and a registered default of None, a successful attribute read
sets the action to store_true, and parsing a token list yields True
exactly when one of the resolved flags is present and False when it is
absent. -/
theorem bool_action_store_true_parse (a b : Argument)
    (h1 : a.isBoolean = true) (h2 : a.options.action = PyVal.none)
    (h3 : a.options.default = PyVal.none) (h4 : a.get = Except.ok b) :
    b.options.action = PyVal.str "store_true" ∧
    ∀ tokens : List String,
      b.storeTrueParse tokens =
        PyVal.bool (b.name_or_flags.any fun f => tokens.contains f) := by
  obtain ⟨c, hh, hb⟩ := (get_ok_iff a b).1 h4
  subst hb
  have hopts : (Argument.resolveDefault (Argument.inferFlags c)).options = c.options := by
    rw [(resolveDefault_preserves (Argument.inferFlags c)).2.2.2.2,
      (inferFlags_preserves c).2.2.2.2]
  have hact := handleBoolAnn_sets_action a c h1 h2 hh
  have hdef : c.options.default = PyVal.none :=
    (handleBoolAnn_preserves a c hh).2.2.2.2.trans h3
  refine ⟨by rw [hopts, hact], ?_⟩
  intro tokens
  unfold Argument.storeTrueParse
  rw [hopts, hdef]
  cases hA : ((Argument.resolveDefault (Argument.inferFlags c)).name_or_flags.any
      fun f => tokens.contains f) <;> simp

/-- Witness for C2 amended at a boolean-hinted Argument with no flags
and no default: present flag parses to True, absent flag to False. -/
theorem bool_action_store_true_parse_witness :
    exC2wRes.options.action = PyVal.str "store_true" ∧
    exC2wRes.storeTrueParse ["--verbose"] = PyVal.bool true ∧
    exC2wRes.storeTrueParse [] = PyVal.bool false :=
  ⟨(bool_action_store_true_parse exC2w exC2wRes rfl rfl rfl rfl).1,
   ((bool_action_store_true_parse exC2w exC2wRes rfl rfl rfl rfl).2
      ["--verbose"]).trans rfl,
   ((bool_action_store_true_parse exC2w exC2wRes rfl rfl rfl rfl).2 []).trans rfl⟩

/-- C3 counterexample: an Argument constructed without an explicit
default and without required stores None as its default, not the
no-value sentinel. -/
theorem unspecified_default_is_none_cex :
    Argument.init "filename" Ann.noAnn [] PyVal.none PyVal.none PyVal.none
      PyVal.empty PyVal.none PyVal.none PyVal.none PyVal.none PyVal.none
      PyVal.none false = Except.ok exC3 ∧
    exC3.default = PyVal.none ∧ PyVal.none ≠ PyVal.empty :=
  ⟨rfl, rfl, by decide⟩

/-- C3 amended: an Argument constructed without an explicit default
stores the no-value sentinel when required is truthy and None
otherwise, and a boolean-hinted Argument whose stored default equals
None or the sentinel resolves it to False on attribute read. -/
theorem default_resolution :
    (∀ (name : String) (ann : Ann) (flags : List String)
        (action choices const dest help metavar nargs required type : PyVal)
        (positional : Bool) (arg : Argument),
        Argument.init name ann flags action choices const PyVal.empty dest help
          metavar nargs required type positional = Except.ok arg →
        arg.default = if pyTruthy required then PyVal.empty else PyVal.none) ∧
    (∀ a b : Argument, a.isBoolean = true →
        pyIn a.default [PyVal.none, PyVal.empty] = true →
        a.get = Except.ok b → b.default = PyVal.bool false) := by
  constructor
  · intro name ann flags action choices const dest help metavar nargs required
      type positional arg h
    unfold Argument.init Argument.checkInput at h
    dsimp only [] at h
    split_ifs at h <;> simp only [Except.ok.injEq] at h <;> subst h <;> simp_all
  · intro a b h1 h2 h3
    obtain ⟨c, hh, hb⟩ := (get_ok_iff a b).1 h3
    subst hb
    have hc := handleBoolAnn_preserves a c hh
    have e1 : (Argument.inferFlags c).ann = a.ann := by
      rw [(inferFlags_preserves c).2.1, hc.2.1]
    have e2 : (Argument.inferFlags c).default = a.default := by
      rw [(inferFlags_preserves c).2.2.2.1, hc.2.2.2.1]
    unfold Argument.resolveDefault Argument.isBoolean
    rw [e1, e2]
    unfold Argument.isBoolean at h1
    simp [h1, h2]

/-- Witness for C3 amended: an unspecified default with falsy required
stores None, and a no-default boolean Argument resolves to False. -/
theorem default_resolution_witness :
    (exC3.default = if pyTruthy PyVal.none then PyVal.empty else PyVal.none) ∧
    exC3bRes.default = PyVal.bool false :=
  ⟨default_resolution.1 "filename" Ann.noAnn [] PyVal.none PyVal.none PyVal.none
      PyVal.none PyVal.none PyVal.none PyVal.none PyVal.none PyVal.none false
      exC3 rfl,
   default_resolution.2 exC3b exC3bRes rfl rfl rfl⟩

/-- C5 counterexample: a boolean-hinted positional Argument that does
have explicit flag strings resolves without raising. -/
theorem bool_positional_with_flags_ok_cex :
    Argument.init "verbose" Ann.boolTy ["--verb"] PyVal.none PyVal.none
      PyVal.none PyVal.empty PyVal.none PyVal.none PyVal.none PyVal.none
      PyVal.none PyVal.none true = Except.ok exC5 ∧
    exC5.isBoolean = true ∧ exC5.positional = true ∧
    exC5.get = Except.ok exC5r :=
  ⟨rfl, rfl, rfl, rfl⟩

/-- C5 amended: a boolean-hinted Argument with no explicit action,
positional set and no explicit flag strings raises a TypeError on
attribute read. -/
theorem bool_positional_no_flags_raises (a : Argument)
    (h1 : a.isBoolean = true) (h2 : a.options.action = PyVal.none)
    (h3 : a.positional = true) (h4 : a.name_or_flags = []) :
    a.get = Except.error (PyError.typeError
      ("Can not use boolean annotation with positional only Argument " ++ a.name)) := by
  apply get_error_of_handle
  unfold Argument.handleBoolAnn
  rw [if_pos (by simp [h1, h2]), if_pos h4, if_pos h3]

/-- Witness for C5 amended at a string-hinted boolean positional. -/
theorem bool_positional_no_flags_raises_witness :
    exC5w.get = Except.error (PyError.typeError
      ("Can not use boolean annotation with positional only Argument " ++ exC5w.name)) :=
  bool_positional_no_flags_raises exC5w rfl rfl rfl rfl

/-- C6 counterexample: a boolean-hinted Argument with a non-boolean
default but explicit flag strings resolves without raising. -/
theorem bool_bad_default_with_flags_ok_cex :
    Argument.init "name" Ann.boolTy ["--name"] PyVal.none PyVal.none PyVal.none
      (PyVal.str "someone") PyVal.none PyVal.none PyVal.none PyVal.none
      PyVal.none PyVal.none false = Except.ok exC6 ∧
    exC6.isBoolean = true ∧
    pyIn exC6.default
      [PyVal.bool true, PyVal.bool false, PyVal.none, PyVal.empty] = false ∧
    exC6.get = Except.ok exC6r :=
  ⟨rfl, rfl, rfl, rfl⟩

/-- C6 amended: a boolean-hinted Argument with no explicit action, not
positional, no explicit flag strings, and a default that compares
unequal to True, False, None and the sentinel raises a ValueError on
attribute read. -/
theorem bool_bad_default_no_flags_value_error (a : Argument)
    (h1 : a.isBoolean = true) (h2 : a.options.action = PyVal.none)
    (h3 : a.positional = false) (h4 : a.name_or_flags = [])
    (h5 : pyIn a.default
      [PyVal.bool true, PyVal.bool false, PyVal.none, PyVal.empty] = false) :
    a.get = Except.error (PyError.valueError
      ("Default value for boolean argument " ++ a.name ++ " can only be boolean")) := by
  apply get_error_of_handle
  unfold Argument.handleBoolAnn
  rw [if_pos (by simp [h1, h2]), if_pos h4, if_neg (by simp [h3]), if_pos h5]

/-- Witness for C6 amended at a string default. -/
theorem bool_bad_default_no_flags_value_error_witness :
    exC6w.get = Except.error (PyError.valueError
      ("Default value for boolean argument " ++ exC6w.name ++ " can only be boolean")) :=
  bool_bad_default_no_flags_value_error exC6w rfl rfl rfl rfl rfl
